import Mathlib

/-
Verification development for the deepagents interactive CLI
(src/deepagents/cli.py).  The definitions below are a shallow embedding
of the turn-execution engine and its helpers: pure Python functions
become Lean functions, the streaming loop of execute_task becomes an
explicit interpreter over a list of stream events, and console output
becomes an explicit trace of output items.  External collaborators
(the agent boundary, the approval keyboard UI, the filesystem) are
modelled as parameters: the agent supplies the successive event streams,
the human supplies one decision per action request, and the filesystem
is a predicate telling which (resolved) paths denote existing regular
files.
-/

namespace DeepAgentsCli

/-- Token usage tracker, embedding class TokenTracker (cli.py lines
330-344).  Counters are natural numbers; the Python code only ever
feeds it non-negative token counts. -/
structure TokenTracker where
  session_input : Nat
  session_output : Nat
  last_input : Nat
  last_output : Nat
deriving DecidableEq, Repr

/-- Embedding of TokenTracker.add (cli.py 339-344): accumulate into the
session totals, overwrite the last-turn totals. -/
def TokenTracker.add (t : TokenTracker) (input_tokens output_tokens : Nat) : TokenTracker :=
  { session_input := t.session_input + input_tokens
    session_output := t.session_output + output_tokens
    last_input := input_tokens
    last_output := output_tokens }

/-- Embedding of MAX_ARG_LENGTH (cli.py 302), the default argument of
truncate_value.  The tool-call display site at cli.py 1052 does not use
this default: it passes 50 explicitly. -/
def MAX_ARG_LENGTH : Nat := 150

/-- Embedding of truncate_value (cli.py 305-309): truncate a string
value if it exceeds max_length, appending an ellipsis marker.  Lean has
no default arguments here, so callers pass the bound explicitly; the
source default is MAX_ARG_LENGTH. -/
def truncate_value (value : String) (max_length : Nat) : String :=
  if value.length > max_length then value.take max_length ++ "..." else value

/-- JSON values as needed by the tool-argument display path: the tool
arguments parsed at cli.py 1050 are flat objects whose values are
strings, integers, booleans or null.  Nested containers are not
modelled; json_loads fails on them, which makes the display fall back
to the raw string, just as the source does for every input on which
its parse-and-iterate step raises. -/
inductive Json where
  | str (s : String)
  | num (n : Int)
  | jtrue
  | jfalse
  | jnull
deriving DecidableEq, Repr

/-- Python str(v) on the JSON scalar values above (used at cli.py 1052
inside the f-string building each displayed argument). -/
def pyStr : Json → String
  | Json.str s => s
  | Json.num n => toString n
  | Json.jtrue => "True"
  | Json.jfalse => "False"
  | Json.jnull => "None"

/-- Left brace character, kept out of string literals. -/
def lbrace : Char := Char.ofNat 123

/-- Right brace character, kept out of string literals. -/
def rbrace : Char := Char.ofNat 125

/-- JSON whitespace skipping, as json.loads does between tokens. -/
def skip_ws : List Char → List Char
  | c :: rest =>
      if c = ' ' ∨ c = '\t' ∨ c = '\n' ∨ c = '\r' then skip_ws rest else c :: rest
  | [] => []

/-- Scan a JSON string body after the opening quote, up to the closing
quote.  Escape sequences are not modelled: a backslash makes the parse
fail, so the display falls back to the raw argument text. -/
def scanStr : List Char → Option (String × List Char)
  | [] => none
  | c :: rest =>
      if c = '"' then some ("", rest)
      else if c = '\\' then none
      else
        match scanStr rest with
        | some (s, r) => some (String.mk (c :: s.data), r)
        | none => none

/-- Scan a run of decimal digits. -/
def scanDigits : List Char → List Char × List Char
  | [] => ([], [])
  | c :: rest =>
      if c.isDigit then
        let p := scanDigits rest
        (c :: p.1, p.2)
      else ([], c :: rest)

/-- Digits to a natural number, most significant first. -/
def digitsToNat (ds : List Char) : Nat :=
  ds.foldl (fun acc c => acc * 10 + (c.toNat - 48)) 0

/-- Parse a JSON integer (optional minus sign followed by digits). -/
def parseNum : List Char → Option (Int × List Char)
  | [] => none
  | c :: rest =>
      if c = '-' then
        let p := scanDigits rest
        if p.1.isEmpty then none else some (-(Int.ofNat (digitsToNat p.1)), p.2)
      else
        let p := scanDigits (c :: rest)
        if p.1.isEmpty then none else some (Int.ofNat (digitsToNat p.1), p.2)

/-- Parse one JSON scalar value. -/
def parseVal (cs : List Char) : Option (Json × List Char) :=
  match skip_ws cs with
  | [] => none
  | 't' :: 'r' :: 'u' :: 'e' :: rest => some (Json.jtrue, rest)
  | 'f' :: 'a' :: 'l' :: 's' :: 'e' :: rest => some (Json.jfalse, rest)
  | 'n' :: 'u' :: 'l' :: 'l' :: rest => some (Json.jnull, rest)
  | c :: rest =>
      if c = '"' then
        match scanStr rest with
        | some (s, r) => some (Json.str s, r)
        | none => none
      else if c = '-' ∨ c.isDigit then
        match parseNum (c :: rest) with
        | some (n, r) => some (Json.num n, r)
        | none => none
      else none

/-- Parse the members of a JSON object after the opening brace, fuel
bounds the number of members. -/
def parseMembers : Nat → List Char → Option (List (String × Json) × List Char)
  | 0, _ => none
  | Nat.succ fuel, cs =>
      match skip_ws cs with
      | c :: rest =>
          if c = '"' then
            match scanStr rest with
            | none => none
            | some (k, r1) =>
                match skip_ws r1 with
                | d :: r2 =>
                    if d = ':' then
                      match parseVal r2 with
                      | none => none
                      | some (v, r3) =>
                          match skip_ws r3 with
                          | e :: r4 =>
                              if e = ',' then
                                match parseMembers fuel r4 with
                                | some (ms, r5) => some ((k, v) :: ms, r5)
                                | none => none
                              else if e = rbrace then some ([(k, v)], r4)
                              else none
                          | [] => none
                    else none
                | [] => none
          else none
      | [] => none

/-- Model of json.loads at cli.py 1050 on the inputs the display path
feeds it: a flat JSON object with scalar values parses to its ordered
key-value list (Python dicts preserve insertion order); everything else
is a parse failure, making the caller fall back to the raw string.
(The source also falls back whenever json.loads succeeds with a
non-dict, since .items() then raises into the bare except.) -/
def json_loads (s : String) : Option (List (String × Json)) :=
  match skip_ws s.data with
  | c :: rest =>
      if c = lbrace then
        match skip_ws rest with
        | d :: r2 =>
            if d = rbrace then
              if (skip_ws r2).isEmpty then some [] else none
            else
              match parseMembers (s.length + 1) (d :: r2) with
              | some (ms, r3) => if (skip_ws r3).isEmpty then some ms else none
              | none => none
        | [] => none
      else none
  | [] => none

/-- One displayed argument, as built by the generator at cli.py 1051-1054:
the key, an equals sign, and the str of the value truncated at 50. -/
def displayPair (kv : String × Json) : String :=
  kv.1 ++ "=" ++ truncate_value (pyStr kv.2) 50

/-- The args_str computation of the tool-call display (cli.py 1047-1058):
a nonempty argument string is parsed as JSON and rendered as
comma-separated key=value pairs with each value truncated at 50
characters; on parse failure the raw string is shown; an empty string
displays as itself (str of the empty string). -/
def tool_args_str (tool_args : String) : String :=
  if tool_args ≠ "" then
    match json_loads tool_args with
    | some pairs => String.intercalate ", " (pairs.map displayPair)
    | none => tool_args
  else tool_args

/-- The tool_icons lookup (cli.py 877-889) with its fallback wrench icon. -/
def tool_icons (name : String) : String :=
  if name = "read_file" then "📖"
  else if name = "write_file" then "✏️"
  else if name = "edit_file" then "✂️"
  else if name = "ls" then "📁"
  else if name = "glob" then "🔍"
  else if name = "grep" then "🔎"
  else if name = "shell" then "⚡"
  else if name = "web_search" then "🌐"
  else if name = "http_request" then "🌍"
  else if name = "task" then "🤖"
  else if name = "write_todos" then "📋"
  else "🔧"

/-- The visible tool-call line printed at cli.py 1060. -/
def toolCallLine (name args : String) : String :=
  "  " ++ tool_icons name ++ " " ++ name ++ "(" ++ tool_args_str args ++ ")"

/-- Python regex whitespace class on the ASCII range, as used by the
file-mention pattern at cli.py 499.  The inputs of interest are ASCII;
the additional Unicode whitespace code points are not modelled. -/
def isPySpace (c : Char) : Bool :=
  c = ' ' ∨ c = '\t' ∨ c = '\n' ∨ c = '\r' ∨ c = '\x0b' ∨ c = '\x0c'

/-- Whether a character continues a mention token, given the character
immediately before it in the text: the pattern at cli.py 499 accepts a
character that is neither whitespace nor an at-sign, or a whitespace
character whose lookbehind sees a backslash. -/
def mention_char (prev c : Char) : Bool :=
  (¬ isPySpace c ∧ c ≠ '@') ∨ (isPySpace c ∧ prev = '\\')

/-- Left-to-right scan of the text for the non-overlapping matches of
the mention pattern, exactly as re.findall walks a string: inTok says
whether a match attempt is in progress, tok is its reversed body so
far, prev the previous character of the text (the lookbehind). -/
def mentionScan (inTok : Bool) (tok : List Char) (prev : Char) : List Char → List String
  | [] => if inTok ∧ tok ≠ [] then [String.mk tok.reverse] else []
  | c :: rest =>
      if inTok then
        if mention_char prev c then mentionScan true (c :: tok) c rest
        else
          (if tok ≠ [] then [String.mk tok.reverse] else []) ++
            (if c = '@' then mentionScan true [] '@' rest
             else mentionScan false [] c rest)
      else
        if c = '@' then mentionScan true [] '@' rest
        else mentionScan false [] c rest

/-- The raw tokens produced by re.findall at cli.py 500, in text order. -/
def findMentions (text : String) : List String :=
  mentionScan false [] ' ' text.data

/-- Replace each backslash-space pair by a space, as the
match.replace call at cli.py 505 does. -/
def unescape_spaces : List Char → List Char
  | '\\' :: ' ' :: rest => ' ' :: unescape_spaces rest
  | c :: rest => c :: unescape_spaces rest
  | [] => []

/-- The cleaned path of one mention token (cli.py 505). -/
def clean_mention (tok : String) : String :=
  String.mk (unescape_spaces tok.data)

/-- The resolved-file accumulation of the loop at cli.py 503-519: a
token whose cleaned path the filesystem reports as an existing regular
file joins the result list; the others are skipped.  The fs parameter
abstracts expanduser, joining with the working directory, resolve,
exists and is_file into one predicate on the cleaned token. -/
def resolveFiles (fs : String → Bool) : List String → List String
  | [] => []
  | m :: rest =>
      if fs (clean_mention m) then clean_mention m :: resolveFiles fs rest
      else resolveFiles fs rest

/-- The warnings printed by the same loop: one per token that does not
resolve to an existing regular file, carrying the raw match text
(cli.py 517). -/
def mentionWarnings (fs : String → Bool) : List String → List String
  | [] => []
  | m :: rest =>
      if fs (clean_mention m) then mentionWarnings fs rest
      else m :: mentionWarnings fs rest

/-- Embedding of parse_file_mentions (cli.py 497-521): extract the
mention tokens and resolve each against the filesystem, returning the
text unchanged together with the resolved files; the warning texts are
returned as a third component in place of the console prints. -/
def parse_file_mentions (fs : String → Bool) (text : String) :
    String × List String × List String :=
  (text, resolveFiles fs (findMentions text), mentionWarnings fs (findMentions text))

/-- The concrete filesystem of the C6 scenario: only a.txt exists. -/
def fsOnlyA : String → Bool := fun s => s = "a.txt"

/-- Usage metadata carried by a streamed message chunk
(message.usage_metadata at cli.py 992-999). -/
structure Usage where
  input_tokens : Nat
  output_tokens : Nat
deriving DecidableEq, Repr

/-- One content block of an AIMessageChunk (cli.py 1002-1063).  A
tool-call chunk may lack its name (None or empty in the source, both
mapped here through the Option and the empty string). -/
inductive Block where
  | text (s : String)
  | reasoning (s : String)
  | tool_call_chunk (name : Option String) (args : String) (id : Option String)
deriving DecidableEq, Repr

/-- One event of the messages channel: a ToolMessage (its content
already flattened to a string by format_tool_message_content), an
AIMessageChunk, or a message without content_blocks, which the loop
skips (cli.py 986-989). -/
inductive MsgEvent where
  | toolMessage (name status content : String)
  | aiChunk (usage : Option Usage) (blocks : List Block)
  | malformed
deriving DecidableEq, Repr

/-- One todo item: content and status strings (cli.py 703-723). -/
structure TodoItem where
  content : String
  status : String
deriving DecidableEq, Repr

/-- An action request inside an interrupt (cli.py 932). -/
structure ActionRequest where
  description : String
deriving DecidableEq, Repr

/-- One event of the updates channel: an interrupt carrying action
requests, a state update that may carry a todos field, or any other
update shape, which the loop ignores (cli.py 914-955). -/
inductive UpdEvent where
  | interrupt (action_requests : List ActionRequest)
  | stateUpdate (todos : Option (List TodoItem))
  | other
deriving DecidableEq, Repr

/-- A tagged event of the dual-channel stream.  ctrlC marks the point
at which the user raises KeyboardInterrupt while the engine is
consuming the stream. -/
inductive StreamEvent where
  | updates (e : UpdEvent)
  | messages (e : MsgEvent)
  | ctrlC
deriving DecidableEq, Repr

/-- An approval decision as returned by prompt_for_shell_approval
(cli.py 834-837). -/
structure Decision where
  dtype : String
  message : Option String
deriving DecidableEq, Repr

/-- Whether a decision is a rejection, as tested at cli.py 936. -/
def isReject (d : Decision) : Bool := d.dtype = "reject"

/-- One item of the console trace produced during a turn.  Spinner
stop and start are recorded so that the thinking-indicator behaviour
is observable; resumeStream records the streaming resumption payload
of the approve path (cli.py 1080) and resumeInvoke the single invoke
of the reject path (cli.py 1072). -/
inductive Out where
  | spinnerStop
  | spinnerStart
  | marker
  | text (s : String)
  | toolLine (s : String)
  | toolError (s : String)
  | todoRender (todos : List TodoItem)
  | resumeStream (decisions : List Decision)
  | resumeInvoke (decisions : List Decision)
  | errorResume (msg : String)
  | rejectedNote
  | interruptedNote
  | tokensLine (n : Nat)
deriving DecidableEq, Repr

/-- The terminal outcome of a turn, in the vocabulary of the spec:
the reject path ends rejected, KeyboardInterrupt ends
interrupted-by-user, everything else completes. -/
inductive Outcome where
  | completed
  | rejected
  | interruptedByUser
deriving DecidableEq, Repr

/-- The mutable locals of execute_task that the streaming loop updates
(cli.py 868-875), plus the ghost list of completed decision batches
collected at interrupts. -/
structure BState where
  has_responded : Bool
  captured_in : Nat
  captured_out : Nat
  current_todos : Option (List TodoItem)
  spinner_active : Bool
  batches : List (List Decision)
deriving DecidableEq, Repr

/-- The spinner-stop idiom (cli.py 926-928 and the like): stop the
status display and clear the flag when it is active; otherwise do
nothing. -/
def stopSpinnerD (s : BState) : BState × List Out :=
  if s.spinner_active then ({ s with spinner_active := false }, [Out.spinnerStop])
  else (s, [])

/-- The token-usage capture step at cli.py 995-999: when either count
is nonzero, keep the running maximum of each. -/
def usage_capture (ci co : Nat) (u : Usage) : Nat × Nat :=
  if u.input_tokens ≠ 0 ∨ u.output_tokens ≠ 0 then
    (Nat.max ci u.input_tokens, Nat.max co u.output_tokens)
  else (ci, co)

/-- The capture over a whole sequence of chunk usage fields, starting
from the zero-initialised locals of cli.py 869-870. -/
def capture_run (ci co : Nat) : List (Option Usage) → Nat × Nat
  | [] => (ci, co)
  | none :: rest => capture_run ci co rest
  | some u :: rest =>
      let p := usage_capture ci co u
      capture_run p.1 p.2 rest

/-- Processing of one content block (cli.py 1002-1063): nonempty text
stops the spinner, prints the one-time marker and the fragment;
nonempty reasoning only stops the spinner; a tool-call chunk prints
its line only when it carries a (truthy) name, pausing and resuming
the spinner around the print without clearing the flag. -/
def processBlock (s : BState) (b : Block) : BState × List Out :=
  match b with
  | Block.text t =>
      if t ≠ "" then
        let p := stopSpinnerD s
        if p.1.has_responded then (p.1, p.2 ++ [Out.text t])
        else ({ p.1 with has_responded := true }, p.2 ++ [Out.marker, Out.text t])
      else (s, [])
  | Block.reasoning r =>
      if r ≠ "" then stopSpinnerD s else (s, [])
  | Block.tool_call_chunk name args _id =>
      match name with
      | some nm =>
          if nm ≠ "" then
            if s.spinner_active then
              (s, [Out.spinnerStop, Out.toolLine (toolCallLine nm args), Out.spinnerStart])
            else (s, [Out.toolLine (toolCallLine nm args)])
          else (s, [])
      | none => (s, [])

/-- Processing of a list of content blocks in order. -/
def processBlocks (s : BState) : List Block → BState × List Out
  | [] => (s, [])
  | b :: rest =>
      let p := processBlock s b
      let q := processBlocks p.1 rest
      (q.1, p.2 ++ q.2)

/-- The usage-capture part of a message (cli.py 991-999). -/
def captureUsage (s : BState) (usage : Option Usage) : BState :=
  match usage with
  | none => s
  | some u =>
      let p := usage_capture s.captured_in s.captured_out u
      { s with captured_in := p.1, captured_out := p.2 }

/-- Processing of one messages-channel event (cli.py 957-1063): a
ToolMessage prints its content in red only when it is a failing shell
result with nonempty content; a chunk captures usage and processes its
blocks; anything without content_blocks is skipped. -/
def processMsg (s : BState) (m : MsgEvent) : BState × List Out :=
  match m with
  | MsgEvent.toolMessage name status content =>
      if name = "shell" ∧ status ≠ "success" then
        if content ≠ "" then
          let p := stopSpinnerD s
          (p.1, p.2 ++ [Out.toolError content])
        else (s, [])
      else (s, [])
  | MsgEvent.malformed => (s, [])
  | MsgEvent.aiChunk usage blocks => processBlocks (captureUsage s usage) blocks

/-- Whether a new todos value triggers a redraw: the inequality test of
cli.py 947 against the last value stored. -/
def todos_changed (current : Option (List TodoItem)) (new_todos : List TodoItem) : Bool :=
  decide (some new_todos ≠ current)

/-- Embedding of render_todo_list (cli.py 703-732): an empty list
renders nothing, a nonempty one prints the panel. -/
def render_todo_list (todos : List TodoItem) : List Out :=
  if todos.isEmpty then [] else [Out.todoRender todos]

/-- How one streaming pass ends: the stream is exhausted, the user
pressed Ctrl+C, or an interrupt arrived and the loop broke out with
the pending action requests. -/
inductive PassExit where
  | exhausted
  | ctrlC
  | interrupted (reqs : List ActionRequest)
deriving DecidableEq, Repr

/-- One pass of the for-loop over agent.stream (cli.py 900-1063):
events are consumed in order until exhaustion, Ctrl+C, or an
interrupt; a state update with a changed todos value stops the spinner
and redraws. -/
def runPass (s : BState) : List StreamEvent → BState × List Out × PassExit
  | [] => (s, [], PassExit.exhausted)
  | ev :: rest =>
      match ev with
      | StreamEvent.ctrlC => (s, [], PassExit.ctrlC)
      | StreamEvent.updates (UpdEvent.interrupt reqs) =>
          let p := stopSpinnerD s
          (p.1, p.2, PassExit.interrupted reqs)
      | StreamEvent.updates (UpdEvent.stateUpdate none) => runPass s rest
      | StreamEvent.updates (UpdEvent.stateUpdate (some todos)) =>
          if todos_changed s.current_todos todos then
            let p := stopSpinnerD s
            let q := runPass { p.1 with current_todos := some todos } rest
            (q.1, p.2 ++ render_todo_list todos ++ q.2.1, q.2.2)
          else runPass s rest
      | StreamEvent.updates UpdEvent.other => runPass s rest
      | StreamEvent.messages m =>
          let p := processMsg s m
          let q := runPass p.1 rest
          (q.1, p.2 ++ q.2.1, q.2.2)

/-- Collect one decision per action request in order (cli.py 931-934).
The human is a function from request to decision; none models Ctrl+C
at the approval prompt, which raises KeyboardInterrupt and discards
the partial batch. -/
def collectDecisions (dec : ActionRequest → Option Decision) :
    List ActionRequest → Option (List Decision)
  | [] => some []
  | r :: rest =>
      match dec r with
      | none => none
      | some d =>
          match collectDecisions dec rest with
          | none => none
          | some ds => some (d :: ds)

/-- The text printed when the reject-path invoke raises (cli.py 1074). -/
def invokeErrOut : Option String → List Out
  | none => []
  | some e => [Out.errorResume e]

/-- Record one completed decision batch. -/
def pushBatch (s : BState) (ds : List Decision) : BState :=
  { s with batches := s.batches ++ [ds] }

/-- The trace tail of the reject path (cli.py 1066-1077): the single
invoke with the decision payload, the error text if the invoke raises,
and the rejection notice. -/
def rejectTail (ds : List Decision) (ie : Option String) : List Out :=
  [Out.resumeInvoke ds] ++ invokeErrOut ie ++ [Out.rejectedNote]

/-- The while-True loop of execute_task (cli.py 895-1084): run one
streaming pass per element of streams; on an interrupt collect the
decisions, and either finish the turn rejected with a single invoke
(cli.py 1066-1077) or resume streaming with the decision payload
(cli.py 1080); Ctrl+C anywhere ends the turn interrupted-by-user
(cli.py 1086-1091). -/
def runLoop (dec : ActionRequest → Option Decision) (invokeErr : Option String)
    (s : BState) : List (List StreamEvent) → BState × List Out × Outcome
  | [] => (s, [], Outcome.completed)
  | evs :: rest =>
      let p := runPass s evs
      match p.2.2 with
      | PassExit.exhausted => (p.1, p.2.1, Outcome.completed)
      | PassExit.ctrlC =>
          let q := stopSpinnerD p.1
          (q.1, p.2.1 ++ q.2 ++ [Out.interruptedNote], Outcome.interruptedByUser)
      | PassExit.interrupted reqs =>
          match collectDecisions dec reqs with
          | none =>
              let q := stopSpinnerD p.1
              (q.1, p.2.1 ++ q.2 ++ [Out.interruptedNote], Outcome.interruptedByUser)
          | some ds =>
              let s2 : BState := pushBatch p.1 ds
              if ds.any isReject then
                let q := stopSpinnerD s2
                (q.1, p.2.1 ++ q.2 ++ rejectTail ds invokeErr, Outcome.rejected)
              else
                let q := runLoop dec invokeErr s2 rest
                (q.1, p.2.1 ++ [Out.resumeStream ds] ++ q.2.1, q.2.2)

/-- The state of the locals when streaming begins (cli.py 868-875):
nothing rendered, zero captured counts, no todos seen, spinner
started. -/
def initState : BState :=
  { has_responded := false
    captured_in := 0
    captured_out := 0
    current_todos := none
    spinner_active := true
    batches := [] }

/-- The observable result of one execute_task call. -/
structure TurnResult where
  out : List Out
  outcome : Outcome
  tracker : TokenTracker
  has_responded : Bool
  captured_in : Nat
  captured_out : Nat
  batches : List (List Decision)
deriving DecidableEq, Repr

/-- The epilogue of execute_task (cli.py 1093-1104), reached after the
while loop ends normally: stop the spinner and, only when the turn
rendered text and a nonzero count was captured, update the token
tracker and print the last-turn usage line.  The interrupted and
rejected paths return before this epilogue, leaving the tracker
untouched. -/
def finishTurn (s1 : BState) (o1 : List Out) (oc : Outcome)
    (t0 : TokenTracker) : TurnResult :=
  match oc with
  | Outcome.completed =>
      let q := stopSpinnerD s1
      if s1.has_responded then
        if s1.captured_in ≠ 0 ∨ s1.captured_out ≠ 0 then
          let t1 := t0.add s1.captured_in s1.captured_out
          let o3 := if t1.last_output ≠ 0 ∧ t1.last_output ≥ 1000
                    then [Out.tokensLine t1.last_output] else []
          { out := o1 ++ q.2 ++ o3, outcome := Outcome.completed, tracker := t1
            has_responded := q.1.has_responded, captured_in := q.1.captured_in
            captured_out := q.1.captured_out, batches := q.1.batches }
        else
          { out := o1 ++ q.2, outcome := Outcome.completed, tracker := t0
            has_responded := q.1.has_responded, captured_in := q.1.captured_in
            captured_out := q.1.captured_out, batches := q.1.batches }
      else
        { out := o1 ++ q.2, outcome := Outcome.completed, tracker := t0
          has_responded := q.1.has_responded, captured_in := q.1.captured_in
          captured_out := q.1.captured_out, batches := q.1.batches }
  | oc =>
      { out := o1, outcome := oc, tracker := t0
        has_responded := s1.has_responded, captured_in := s1.captured_in
        captured_out := s1.captured_out, batches := s1.batches }

/-- Embedding of execute_task (cli.py 840-1104) from the start of
streaming: the agent supplies the successive event streams (the
initial one, then one per approve-resumption), dec the human
decisions, invokeErr whether the reject-path invoke raises. -/
def execute_task (streams : List (List StreamEvent))
    (dec : ActionRequest → Option Decision) (invokeErr : Option String)
    (t0 : TokenTracker) : TurnResult :=
  let r := runLoop dec invokeErr initState streams
  finishTurn r.1 r.2.1 r.2.2 t0

/-- Whether a trace item is a visible text fragment. -/
def isText : Out → Bool
  | Out.text _ => true
  | _ => false

/-- Whether a trace item is a resumption call whose payload contains a
rejection. -/
def isRejectResume : Out → Bool
  | Out.resumeInvoke ds => ds.any isReject
  | Out.resumeStream ds => ds.any isReject
  | _ => false

/-- Items that the streaming pass itself may emit (as opposed to the
interrupt-handling epilogue of the loop). -/
def stream_item : Out → Bool
  | Out.spinnerStop => true
  | Out.spinnerStart => true
  | Out.marker => true
  | Out.text _ => true
  | Out.toolLine _ => true
  | Out.toolError _ => true
  | Out.todoRender _ => true
  | _ => false

/-- True when some text fragment is rendered after a rejecting
resumption call in the trace. -/
def hasTextAfterReject : List Out → Bool
  | [] => false
  | o :: rest => (isRejectResume o && rest.any isText) || hasTextAfterReject rest

/-- The visible tool-call lines of a trace, in order. -/
def toolLinesOf (out : List Out) : List String :=
  out.filterMap fun o =>
    match o with
    | Out.toolLine s => some s
    | _ => none

/-- The rendered tool-result error texts of a trace, in order. -/
def toolErrorTextsOf (out : List Out) : List String :=
  out.filterMap fun o =>
    match o with
    | Out.toolError s => some s
    | _ => none

/-- The rendered todo snapshots of a trace, in order. -/
def todoRendersOf (out : List Out) : List (List TodoItem) :=
  out.filterMap fun o =>
    match o with
    | Out.todoRender t => some t
    | _ => none

/-- Character-list test that one list begins with another. -/
def charsStartWith : List Char → List Char → Bool
  | [], _ => true
  | _ :: _, [] => false
  | a :: as, b :: bs => a = b && charsStartWith as bs

/-- Character-list substring test. -/
def charsHasSub (sub : List Char) : List Char → Bool
  | [] => sub.isEmpty
  | c :: rest => charsStartWith sub (c :: rest) || charsHasSub sub rest

/-- Substring test on strings, used to state what a rendered line does
or does not show. -/
def strContains (s sub : String) : Bool :=
  charsHasSub sub.data s.data

/-- True when none of the recorded decision batches contains a
rejection. -/
def noRejectBatches (bs : List (List Decision)) : Bool :=
  bs.all fun b => !(b.any isReject)

/-- A human who never answers: no claim scenario below reaches an
approval prompt with this decider. -/
def decNone : ActionRequest → Option Decision := fun _ => none

/-- A human who rejects every request, with the message the source
attaches at cli.py 837. -/
def decRejectAll : ActionRequest → Option Decision :=
  fun _ => some { dtype := "reject", message := some "User rejected the command" }

/-- An arbitrary starting tracker for the concrete scenarios. -/
def trackerW : TokenTracker :=
  { session_input := 1, session_output := 2, last_input := 3, last_output := 4 }

/-- A sixty-character argument value for the truncation scenario. -/
def c2val : String := String.mk (List.replicate 60 'a')

/-- A tool-argument JSON string whose single value is c2val. -/
def c2args : String := "\x7b\"command\":\"" ++ c2val ++ "\"\x7d"

/-- The C3 scenario stream: a shell tool-call fragment carrying the
name but no args, then a fragment carrying the args but no name. -/
def c3stream : List StreamEvent :=
  [StreamEvent.messages (MsgEvent.aiChunk none
      [Block.tool_call_chunk (some "shell") "" none]),
   StreamEvent.messages (MsgEvent.aiChunk none
      [Block.tool_call_chunk none "\x7b\"command\":\"ls\"\x7d" none])]

/-- The args-only fragment of the C3 scenario on its own. -/
def c3streamNameless : List StreamEvent :=
  [StreamEvent.messages (MsgEvent.aiChunk none
      [Block.tool_call_chunk none "\x7b\"command\":\"ls\"\x7d" none])]

/-- The C4 scenario stream: a todos update followed by further agent
text, so the turn is not at a terminal state when the redraw happens. -/
def c4stream : List StreamEvent :=
  [StreamEvent.updates (UpdEvent.stateUpdate (some [{ content := "t", status := "pending" }])),
   StreamEvent.messages (MsgEvent.aiChunk none [Block.text "hi"])]

/-- The C1 witness scenario: a single interrupt with one request. -/
def c1streams : List (List StreamEvent) :=
  [[StreamEvent.updates (UpdEvent.interrupt [{ description := "Shell Command: rm -rf /tmp/x" }])]]

/-- Helper for C9: the capture loop computes, componentwise, the
running maximum of all usage reports over the starting accumulators. -/
theorem capture_run_eq (ci co : Nat) (us : List (Option Usage)) :
    capture_run ci co us =
      ((us.filterMap id).foldl (fun a u => Nat.max a u.input_tokens) ci,
       (us.filterMap id).foldl (fun a u => Nat.max a u.output_tokens) co) := by
  induction us generalizing ci co with
  | nil => rfl
  | cons h rest ih =>
      cases h with
      | none => simpa [capture_run] using ih ci co
      | some u =>
          by_cases hz : u.input_tokens ≠ 0 ∨ u.output_tokens ≠ 0
          · simp [capture_run, usage_capture, hz, ih]
          · push_neg at hz
            simp [capture_run, usage_capture, hz.1, hz.2, ih, Nat.max_comm]

/-- C8: TokenTracker.add is order-independent on the session totals,
while the last-turn fields reflect only the most recent call. -/
theorem c8_token_tracker_add (t : TokenTracker) (a b c d : Nat) :
    ((t.add a b).add c d).session_input = ((t.add c d).add a b).session_input ∧
    ((t.add a b).add c d).session_output = ((t.add c d).add a b).session_output ∧
    ((t.add a b).add c d).last_input = c ∧
    ((t.add a b).add c d).last_output = d ∧
    ((t.add c d).add a b).last_input = a ∧
    ((t.add c d).add a b).last_output = b := by
  refine ⟨?_, ?_, rfl, rfl, rfl, rfl⟩ <;> simp [TokenTracker.add] <;> omega

/-- C9: the token counts captured during a turn are the maximum, not
the sum, of the input and output counts over all usage reports, so
repeated cumulative reports never push the captured totals beyond the
largest single report. -/
theorem c9_usage_capture_is_max (us : List (Option Usage)) :
    capture_run 0 0 us =
      ((us.filterMap id).foldl (fun a u => Nat.max a u.input_tokens) 0,
       (us.filterMap id).foldl (fun a u => Nat.max a u.output_tokens) 0) :=
  capture_run_eq 0 0 us

/-- C6: mention parsing of the example text yields the two tokens
a.txt and b c.txt (the escaped space is part of one token); with a
filesystem on which only a.txt exists, only a.txt resolves while the
missing token produces a warning; and the text component returned is
always the unmodified input. -/
theorem c6_file_mentions :
    (∀ (fs : String → Bool) (text : String), (parse_file_mentions fs text).1 = text) ∧
    (findMentions "@a.txt and @b\\ c.txt").map clean_mention = ["a.txt", "b c.txt"] ∧
    (parse_file_mentions fsOnlyA "@a.txt and @b\\ c.txt").2.1 = ["a.txt"] ∧
    (parse_file_mentions fsOnlyA "@a.txt and @b\\ c.txt").2.2 = ["b\\ c.txt"] :=
  ⟨fun _ _ => rfl, by decide, by decide, by decide⟩

/-- Witness for C6: the text component at a concrete input. -/
theorem c6_file_mentions_witness :
    (parse_file_mentions fsOnlyA "@a.txt and @b\\ c.txt").1 = "@a.txt and @b\\ c.txt" :=
  c6_file_mentions.1 fsOnlyA "@a.txt and @b\\ c.txt"

set_option maxRecDepth 8000 in
/-- C2 counterexample: a sixty-character argument value (well under
150 characters) is not displayed unmodified on the tool-call line: the
display site truncates at 50 characters, not at the 150-character
bound the claim states. -/
theorem c2_counterexample :
    c2val.length ≤ 150 ∧
    tool_args_str c2args = "command=" ++ String.mk (List.replicate 50 'a') ++ "..." ∧
    tool_args_str c2args ≠ "command=" ++ c2val := by
  refine ⟨by decide, by decide, by decide⟩

/-- C2 amended: on a parsed argument object, each displayed value is
truncated at 50 characters with an ellipsis marker, and values of 50
characters or fewer are displayed unmodified. -/
theorem c2_truncation (args : String) (pairs : List (String × Json))
    (hne : args ≠ "") (hp : json_loads args = some pairs) :
    tool_args_str args = String.intercalate ", " (pairs.map displayPair) ∧
    ∀ k j, (k, j) ∈ pairs →
      ((pyStr j).length ≤ 50 → displayPair (k, j) = k ++ "=" ++ pyStr j) ∧
      ((pyStr j).length > 50 →
        displayPair (k, j) = k ++ "=" ++ (pyStr j).take 50 ++ "...") := by
  constructor
  · simp [tool_args_str, hne, hp]
  · intro k j _
    constructor
    · intro h
      simp [displayPair, truncate_value, Nat.not_lt.mpr h]
    · intro h
      simp [displayPair, truncate_value, h, String.append_assoc]

/-- Witness for C2 amended: the two-character value ls is displayed
unmodified. -/
theorem c2_truncation_witness :
    tool_args_str "\x7b\"k\":\"ls\"\x7d" = "k=ls" ∧
    displayPair ("k", Json.str "ls") = "k=ls" := by
  have h := c2_truncation "\x7b\"k\":\"ls\"\x7d" [("k", Json.str "ls")] (by decide) (by decide)
  exact ⟨h.1.trans (by decide),
         ((h.2 "k" (Json.str "ls") (by simp)).1 (by decide)).trans (by decide)⟩

set_option maxRecDepth 8000 in
/-- C3 counterexample: in the name-first-args-later scenario, exactly
one tool-call line is rendered, but it reads shell() and does not show
command=ls, because the line is printed as soon as the name-bearing
fragment arrives, before the argument fragment exists. -/
theorem c3_counterexample :
    toolLinesOf (execute_task [c3stream] decNone none trackerW).out = ["  ⚡ shell()"] ∧
    strContains "  ⚡ shell()" "command=ls" = false := by
  refine ⟨by decide, by decide⟩

set_option maxRecDepth 8000 in
/-- C3 amended: in that scenario exactly one visible tool-call line is
rendered, only once the name is known (the args-only fragment alone
renders nothing), and it shows an empty argument list rather than
command=ls. -/
theorem c3_one_line_empty_args :
    toolLinesOf (execute_task [c3stream] decNone none trackerW).out = ["  ⚡ shell()"] ∧
    toolLinesOf (execute_task [c3streamNameless] decNone none trackerW).out = [] := by
  refine ⟨by decide, by decide⟩

/-- C4 counterexample: a turn whose stream delivers a todos update and
then further agent text suspends the thinking indicator for the
redraw, yet never resumes it, even though the turn has not reached a
terminal state at the redraw. -/
theorem c4_counterexample :
    (execute_task [c4stream] decNone none trackerW).out =
      [Out.spinnerStop, Out.todoRender [{ content := "t", status := "pending" }],
       Out.marker, Out.text "hi"] ∧
    Out.spinnerStart ∉ (execute_task [c4stream] decNone none trackerW).out := by
  refine ⟨by decide, by decide⟩

/-- C4 amended: on a todos update that differs from the last rendered
snapshot, the engine suspends any active thinking indicator before
redrawing and leaves it suspended: the indicator is not resumed
afterward. -/
theorem c4_spinner_not_resumed (s : BState) (todos : List TodoItem)
    (h : todos_changed s.current_todos todos = true) :
    (runPass s [StreamEvent.updates (UpdEvent.stateUpdate (some todos))]).1.spinner_active
        = false ∧
    (runPass s [StreamEvent.updates (UpdEvent.stateUpdate (some todos))]).2.1 =
      (if s.spinner_active then [Out.spinnerStop] else []) ++ render_todo_list todos ∧
    Out.spinnerStart ∉
      (runPass s [StreamEvent.updates (UpdEvent.stateUpdate (some todos))]).2.1 := by
  by_cases hs : s.spinner_active <;>
    by_cases ht : todos.isEmpty <;>
      simp [runPass, h, stopSpinnerD, hs, render_todo_list, ht]

/-- Witness for C4 amended, at the fresh turn state and a singleton
todo list. -/
theorem c4_spinner_witness :
    (runPass initState [StreamEvent.updates (UpdEvent.stateUpdate
        (some [{ content := "t", status := "pending" }]))]).1.spinner_active = false ∧
    (runPass initState [StreamEvent.updates (UpdEvent.stateUpdate
        (some [{ content := "t", status := "pending" }]))]).2.1 =
      (if initState.spinner_active then [Out.spinnerStop] else []) ++
        render_todo_list [{ content := "t", status := "pending" }] ∧
    Out.spinnerStart ∉
      (runPass initState [StreamEvent.updates (UpdEvent.stateUpdate
        (some [{ content := "t", status := "pending" }]))]).2.1 :=
  c4_spinner_not_resumed initState [{ content := "t", status := "pending" }] (by decide)

/-- C5: a tool result is rendered exactly when it is a failing shell
result, and then its (nonempty) content is surfaced verbatim; every
other tool result, and every successful shell result, produces no
visible output at all. -/
theorem c5_shell_errors (s : BState) (name status content : String) :
    toolErrorTextsOf (processMsg s (MsgEvent.toolMessage name status content)).2 =
      (if name = "shell" ∧ status ≠ "success" then
         (if content = "" then [] else [content])
       else []) ∧
    (¬ (name = "shell" ∧ status ≠ "success") →
       (processMsg s (MsgEvent.toolMessage name status content)).2 = []) := by
  constructor
  · by_cases h1 : name = "shell" ∧ status ≠ "success"
    · by_cases h2 : content = ""
      · simp [processMsg, h1, h2, toolErrorTextsOf]
      · by_cases hs : s.spinner_active <;>
          simp [processMsg, h1, h2, stopSpinnerD, hs, toolErrorTextsOf]
    · simp [processMsg, h1, toolErrorTextsOf]
  · intro h1
    simp [processMsg, h1]

/-- Witness for C5: a failing web_search result renders nothing. -/
theorem c5_shell_errors_witness :
    toolErrorTextsOf (processMsg initState
        (MsgEvent.toolMessage "web_search" "error" "boom")).2 = [] ∧
    (processMsg initState (MsgEvent.toolMessage "web_search" "error" "boom")).2 = [] := by
  have h := c5_shell_errors initState "web_search" "error" "boom"
  exact ⟨h.1.trans (by decide), h.2 (by decide)⟩

/-- C7: within a pass, a todo snapshot is rendered exactly when it
differs (whole-structure inequality) from the last rendered one, so
delivering the same snapshot twice in succession renders it exactly
once, not twice. -/
theorem c7_todo_redraw_once (s : BState) (todos : List TodoItem) (h : todos ≠ []) :
    todoRendersOf (runPass s
        [StreamEvent.updates (UpdEvent.stateUpdate (some todos)),
         StreamEvent.updates (UpdEvent.stateUpdate (some todos))]).2.1 =
      (if todos_changed s.current_todos todos then [todos] else []) := by
  have hne : todos.isEmpty = false := by
    cases todos with
    | nil => exact absurd rfl h
    | cons a l => rfl
  by_cases hc : todos_changed s.current_todos todos
  · have h2 : todos_changed (some todos : Option (List TodoItem)) todos = false := by
      simp [todos_changed]
    by_cases hs : s.spinner_active <;>
      simp [runPass, hc, h2, stopSpinnerD, hs, render_todo_list, hne, todoRendersOf]
  · simp [runPass, hc, todoRendersOf]

/-- Witness for C7: from the fresh turn state, the duplicated
singleton snapshot is rendered exactly once. -/
theorem c7_todo_redraw_once_witness :
    todoRendersOf (runPass initState
        [StreamEvent.updates (UpdEvent.stateUpdate
            (some [{ content := "t", status := "pending" }])),
         StreamEvent.updates (UpdEvent.stateUpdate
            (some [{ content := "t", status := "pending" }]))]).2.1 =
      [[{ content := "t", status := "pending" }]] :=
  (c7_todo_redraw_once initState [{ content := "t", status := "pending" }]
      (by decide)).trans (by decide)

/-- Stopping the spinner does not change the has_responded flag. -/
theorem stopSpinnerD_hr (s : BState) :
    ((stopSpinnerD s).1).has_responded = s.has_responded := by
  unfold stopSpinnerD; split <;> rfl

/-- Stopping the spinner does not change the recorded batches. -/
theorem stopSpinnerD_batches (s : BState) :
    ((stopSpinnerD s).1).batches = s.batches := by
  unfold stopSpinnerD; split <;> rfl

/-- The spinner-stop delta consists only of spinner stops. -/
theorem stopSpinnerD_mem_eq (s : BState) :
    ∀ o ∈ (stopSpinnerD s).2, o = Out.spinnerStop := by
  unfold stopSpinnerD; split <;> simp

/-- The spinner-stop delta contains no text fragment. -/
theorem stopSpinnerD_any_text (s : BState) :
    (stopSpinnerD s).2.any isText = false := by
  unfold stopSpinnerD; split <;> rfl

/-- The spinner-stop delta consists of stream items. -/
theorem stopSpinnerD_all (s : BState) :
    (stopSpinnerD s).2.all stream_item = true := by
  unfold stopSpinnerD; split <;> rfl

/-- Usage capture does not change the has_responded flag. -/
theorem captureUsage_hr (s : BState) (u : Option Usage) :
    (captureUsage s u).has_responded = s.has_responded := by
  cases u <;> rfl

/-- Usage capture does not change the recorded batches. -/
theorem captureUsage_batches (s : BState) (u : Option Usage) :
    (captureUsage s u).batches = s.batches := by
  cases u <;> rfl

/-- A block step emits only stream items. -/
theorem processBlock_all (s : BState) (b : Block) :
    (processBlock s b).2.all stream_item = true := by
  cases b with
  | text t =>
      by_cases h : t = ""
      · simp [processBlock, h]
      · by_cases h2 : ((stopSpinnerD s).1).has_responded <;>
          simp [processBlock, h, h2, List.all_append, stopSpinnerD_all, stream_item]
  | reasoning r =>
      by_cases h : r = "" <;> simp [processBlock, h, stopSpinnerD_all]
  | tool_call_chunk name args id =>
      cases name with
      | none => rfl
      | some nm =>
          by_cases h : nm = ""
          · simp [processBlock, h]
          · by_cases hs : s.spinner_active <;>
              simp [processBlock, h, hs, stream_item]

/-- A block step does not change the recorded batches. -/
theorem processBlock_batches (s : BState) (b : Block) :
    (processBlock s b).1.batches = s.batches := by
  cases b with
  | text t =>
      by_cases h : t = ""
      · simp [processBlock, h]
      · by_cases h2 : ((stopSpinnerD s).1).has_responded <;>
          simp [processBlock, h, h2, stopSpinnerD_batches]
  | reasoning r =>
      by_cases h : r = "" <;> simp [processBlock, h, stopSpinnerD_batches]
  | tool_call_chunk name args id =>
      cases name with
      | none => rfl
      | some nm =>
          by_cases h : nm = ""
          · simp [processBlock, h]
          · by_cases hs : s.spinner_active <;> simp [processBlock, h, hs]

/-- A block step that emits no text leaves has_responded clear. -/
theorem processBlock_hr (s : BState) (b : Block) (hs : s.has_responded = false)
    (hd : (processBlock s b).2.any isText = false) :
    (processBlock s b).1.has_responded = false := by
  cases b with
  | text t =>
      by_cases h : t = ""
      · simpa [processBlock, h] using hs
      · exfalso
        by_cases h2 : ((stopSpinnerD s).1).has_responded <;>
          simp [processBlock, h, h2, List.any_append, isText] at hd
  | reasoning r =>
      by_cases h : r = ""
      · simpa [processBlock, h] using hs
      · simpa [processBlock, h, stopSpinnerD_hr] using hs
  | tool_call_chunk name args id =>
      cases name with
      | none => simpa [processBlock] using hs
      | some nm =>
          by_cases h : nm = ""
          · simpa [processBlock, h] using hs
          · by_cases hsp : s.spinner_active <;>
              simpa [processBlock, h, hsp] using hs

/-- A block-list step emits only stream items. -/
theorem processBlocks_all (s : BState) (bs : List Block) :
    (processBlocks s bs).2.all stream_item = true := by
  induction bs generalizing s with
  | nil => rfl
  | cons b rest ih =>
      simp [processBlocks, List.all_append, processBlock_all, ih]

/-- A block-list step does not change the recorded batches. -/
theorem processBlocks_batches (s : BState) (bs : List Block) :
    (processBlocks s bs).1.batches = s.batches := by
  induction bs generalizing s with
  | nil => rfl
  | cons b rest ih =>
      simp [processBlocks, ih, processBlock_batches]

/-- A block-list step that emits no text leaves has_responded clear. -/
theorem processBlocks_hr (s : BState) (bs : List Block) (hs : s.has_responded = false)
    (hd : (processBlocks s bs).2.any isText = false) :
    (processBlocks s bs).1.has_responded = false := by
  induction bs generalizing s with
  | nil => simpa [processBlocks] using hs
  | cons b rest ih =>
      simp only [processBlocks, List.any_append, Bool.or_eq_false_iff] at hd
      exact ih _ (processBlock_hr s b hs hd.1) hd.2

/-- A message step emits only stream items. -/
theorem processMsg_all (s : BState) (m : MsgEvent) :
    (processMsg s m).2.all stream_item = true := by
  cases m with
  | toolMessage name status content =>
      by_cases h1 : name = "shell" ∧ status ≠ "success"
      · by_cases h2 : content = ""
        · simp [processMsg, h1, h2]
        · simp [processMsg, h1, h2, List.all_append, stopSpinnerD_all, stream_item]
      · simp [processMsg, h1]
  | malformed => rfl
  | aiChunk usage blocks => simp [processMsg, processBlocks_all]

/-- A message step does not change the recorded batches. -/
theorem processMsg_batches (s : BState) (m : MsgEvent) :
    (processMsg s m).1.batches = s.batches := by
  cases m with
  | toolMessage name status content =>
      by_cases h1 : name = "shell" ∧ status ≠ "success"
      · by_cases h2 : content = "" <;>
          simp [processMsg, h1, h2, stopSpinnerD_batches]
      · simp [processMsg, h1]
  | malformed => rfl
  | aiChunk usage blocks =>
      simp [processMsg, processBlocks_batches, captureUsage_batches]

/-- A message step that emits no text leaves has_responded clear. -/
theorem processMsg_hr (s : BState) (m : MsgEvent) (hs : s.has_responded = false)
    (hd : (processMsg s m).2.any isText = false) :
    (processMsg s m).1.has_responded = false := by
  cases m with
  | toolMessage name status content =>
      by_cases h1 : name = "shell" ∧ status ≠ "success"
      · by_cases h2 : content = "" <;>
          simpa [processMsg, h1, h2, stopSpinnerD_hr] using hs
      · simpa [processMsg, h1] using hs
  | malformed => simpa [processMsg] using hs
  | aiChunk usage blocks =>
      have hcap : (captureUsage s usage).has_responded = false := by
        simpa [captureUsage_hr] using hs
      simp only [processMsg] at hd ⊢
      exact processBlocks_hr _ blocks hcap hd

/-- A streaming pass emits only stream items. -/
theorem runPass_all (s : BState) (evs : List StreamEvent) :
    (runPass s evs).2.1.all stream_item = true := by
  induction evs generalizing s with
  | nil => rfl
  | cons ev rest ih =>
      cases ev with
      | ctrlC => rfl
      | messages m => simp [runPass, List.all_append, processMsg_all, ih]
      | updates u =>
          cases u with
          | interrupt reqs => simp [runPass, stopSpinnerD_all]
          | other => simpa [runPass] using ih s
          | stateUpdate todos? =>
              cases todos? with
              | none => simpa [runPass] using ih s
              | some todos =>
                  by_cases hc : todos_changed s.current_todos todos
                  · have hrt : (render_todo_list todos).all stream_item = true := by
                      unfold render_todo_list; split <;> rfl
                    simp [runPass, hc, List.all_append, stopSpinnerD_all, hrt, ih]
                  · simpa [runPass, hc] using ih s

/-- A streaming pass does not change the recorded batches. -/
theorem runPass_batches (s : BState) (evs : List StreamEvent) :
    (runPass s evs).1.batches = s.batches := by
  induction evs generalizing s with
  | nil => rfl
  | cons ev rest ih =>
      cases ev with
      | ctrlC => rfl
      | messages m => simp [runPass, ih, processMsg_batches]
      | updates u =>
          cases u with
          | interrupt reqs => simp [runPass, stopSpinnerD_batches]
          | other => simpa [runPass] using ih s
          | stateUpdate todos? =>
              cases todos? with
              | none => simpa [runPass] using ih s
              | some todos =>
                  by_cases hc : todos_changed s.current_todos todos
                  · simp [runPass, hc, ih, stopSpinnerD_batches]
                  · simpa [runPass, hc] using ih s

/-- A streaming pass that emits no text leaves has_responded clear. -/
theorem runPass_hr (s : BState) (evs : List StreamEvent) (hs : s.has_responded = false)
    (hd : (runPass s evs).2.1.any isText = false) :
    (runPass s evs).1.has_responded = false := by
  induction evs generalizing s with
  | nil => simpa [runPass] using hs
  | cons ev rest ih =>
      cases ev with
      | ctrlC => simpa [runPass] using hs
      | messages m =>
          simp only [runPass, List.any_append, Bool.or_eq_false_iff] at hd
          exact ih _ (processMsg_hr s m hs hd.1) hd.2
      | updates u =>
          cases u with
          | interrupt reqs => simpa [runPass, stopSpinnerD_hr] using hs
          | other =>
              simp only [runPass] at hd ⊢
              exact ih s hs hd
          | stateUpdate todos? =>
              cases todos? with
              | none =>
                  simp only [runPass] at hd ⊢
                  exact ih s hs hd
              | some todos =>
                  by_cases hc : todos_changed s.current_todos todos
                  · simp only [runPass, hc, if_true, List.any_append,
                      Bool.or_eq_false_iff] at hd ⊢
                    refine ih _ ?_ hd.2
                    simpa [stopSpinnerD_hr] using hs
                  · simp only [runPass, hc, if_false] at hd ⊢
                    exact ih s hs hd

/-- A stream item is never a resumption call. -/
theorem stream_item_not_reject (o : Out) (h : stream_item o = true) :
    isRejectResume o = false := by
  cases o <;> simp_all [stream_item, isRejectResume]

/-- The pass delta contains no rejecting resumption. -/
theorem runPass_no_reject (s : BState) (evs : List StreamEvent) :
    ∀ o ∈ (runPass s evs).2.1, isRejectResume o = false := fun o ho =>
  stream_item_not_reject o ((List.all_eq_true.mp (runPass_all s evs)) o ho)

/-- Lists without rejecting resumptions count zero of them. -/
theorem countP_zero_of_no_reject (l : List Out)
    (h : ∀ o ∈ l, isRejectResume o = false) :
    l.countP isRejectResume = 0 := by
  rw [List.countP_eq_zero]
  intro o ho
  simp [h o ho]

/-- Appending after reject-free items preserves the absence of text
after a rejecting resumption. -/
theorem hasTextAfterReject_append_false (A B : List Out)
    (hA : ∀ o ∈ A, isRejectResume o = false)
    (hB : hasTextAfterReject B = false) :
    hasTextAfterReject (A ++ B) = false := by
  induction A with
  | nil => simpa using hB
  | cons a rest ih =>
      have ha := hA a (List.mem_cons_self a rest)
      have hrest : ∀ o ∈ rest, isRejectResume o = false := fun o ho =>
        hA o (List.mem_cons_of_mem a ho)
      simp [hasTextAfterReject, ha, ih hrest]

/-- The reject tail renders no text after its resumption call. -/
theorem rejectTail_no_text (ds : List Decision) (ie : Option String) :
    hasTextAfterReject (rejectTail ds ie) = false := by
  cases ie <;>
    simp [rejectTail, invokeErrOut, hasTextAfterReject, isText, isRejectResume]

/-- The reject tail contains exactly one rejecting resumption when the
batch contains a rejection. -/
theorem rejectTail_countP (ds : List Decision) (ie : Option String)
    (h : ds.any isReject = true) :
    (rejectTail ds ie).countP isRejectResume = 1 := by
  cases ie <;>
    simp [rejectTail, invokeErrOut, List.countP_cons, isRejectResume, h]

/-- The reject tail reports the invoke failure when there is one. -/
theorem rejectTail_mem_err (ds : List Decision) (e : String) :
    Out.errorResume e ∈ rejectTail ds (some e) := by
  simp [rejectTail, invokeErrOut]

/-- The loop on a pass that exhausts its stream. -/
theorem runLoop_cons_exhausted (dec : ActionRequest → Option Decision)
    (ie : Option String) (s : BState) (evs : List StreamEvent)
    (rest : List (List StreamEvent))
    (h : (runPass s evs).2.2 = PassExit.exhausted) :
    runLoop dec ie s (evs :: rest) =
      ((runPass s evs).1, (runPass s evs).2.1, Outcome.completed) := by
  simp only [runLoop, h]

/-- The loop on a pass interrupted by Ctrl+C. -/
theorem runLoop_cons_ctrlC (dec : ActionRequest → Option Decision)
    (ie : Option String) (s : BState) (evs : List StreamEvent)
    (rest : List (List StreamEvent))
    (h : (runPass s evs).2.2 = PassExit.ctrlC) :
    runLoop dec ie s (evs :: rest) =
      ((stopSpinnerD (runPass s evs).1).1,
       (runPass s evs).2.1 ++ (stopSpinnerD (runPass s evs).1).2 ++
         [Out.interruptedNote],
       Outcome.interruptedByUser) := by
  simp only [runLoop, h]

/-- The loop on an interrupt whose approval prompt is aborted by
Ctrl+C. -/
theorem runLoop_cons_promptCtrlC (dec : ActionRequest → Option Decision)
    (ie : Option String) (s : BState) (evs : List StreamEvent)
    (rest : List (List StreamEvent)) (reqs : List ActionRequest)
    (h : (runPass s evs).2.2 = PassExit.interrupted reqs)
    (hcd : collectDecisions dec reqs = none) :
    runLoop dec ie s (evs :: rest) =
      ((stopSpinnerD (runPass s evs).1).1,
       (runPass s evs).2.1 ++ (stopSpinnerD (runPass s evs).1).2 ++
         [Out.interruptedNote],
       Outcome.interruptedByUser) := by
  simp only [runLoop, h, hcd]

/-- The loop on an interrupt whose collected decisions contain a
rejection. -/
theorem runLoop_cons_reject (dec : ActionRequest → Option Decision)
    (ie : Option String) (s : BState) (evs : List StreamEvent)
    (rest : List (List StreamEvent)) (reqs : List ActionRequest)
    (ds : List Decision)
    (h : (runPass s evs).2.2 = PassExit.interrupted reqs)
    (hcd : collectDecisions dec reqs = some ds)
    (hrj : ds.any isReject = true) :
    runLoop dec ie s (evs :: rest) =
      ((stopSpinnerD (pushBatch (runPass s evs).1 ds)).1,
       (runPass s evs).2.1 ++ (stopSpinnerD (pushBatch (runPass s evs).1 ds)).2 ++
         rejectTail ds ie,
       Outcome.rejected) := by
  simp only [runLoop, h, hcd, hrj, if_true]

/-- The loop on an interrupt whose collected decisions are all
approvals: the loop records the batch and re-streams. -/
theorem runLoop_cons_approve (dec : ActionRequest → Option Decision)
    (ie : Option String) (s : BState) (evs : List StreamEvent)
    (rest : List (List StreamEvent)) (reqs : List ActionRequest)
    (ds : List Decision)
    (h : (runPass s evs).2.2 = PassExit.interrupted reqs)
    (hcd : collectDecisions dec reqs = some ds)
    (hrj : ds.any isReject = false) :
    runLoop dec ie s (evs :: rest) =
      ((runLoop dec ie (pushBatch (runPass s evs).1 ds) rest).1,
       (runPass s evs).2.1 ++ [Out.resumeStream ds] ++
         (runLoop dec ie (pushBatch (runPass s evs).1 ds) rest).2.1,
       (runLoop dec ie (pushBatch (runPass s evs).1 ds) rest).2.2) := by
  simp only [runLoop, h, hcd, hrj, Bool.false_eq_true, if_false]

/-- If the loop emits no text, the has_responded flag stays clear. -/
theorem runLoop_hr (dec : ActionRequest → Option Decision) (ie : Option String)
    (streams : List (List StreamEvent)) (s : BState)
    (hs : s.has_responded = false)
    (hd : (runLoop dec ie s streams).2.1.any isText = false) :
    (runLoop dec ie s streams).1.has_responded = false := by
  induction streams generalizing s with
  | nil => simpa [runLoop] using hs
  | cons evs rest ih =>
      rcases hexit : (runPass s evs).2.2 with _ | _ | reqs
      · rw [runLoop_cons_exhausted dec ie s evs rest hexit] at hd ⊢
        exact runPass_hr s evs hs hd
      · rw [runLoop_cons_ctrlC dec ie s evs rest hexit] at hd ⊢
        simp only [List.any_append, Bool.or_eq_false_iff] at hd
        rw [stopSpinnerD_hr]
        exact runPass_hr s evs hs hd.1.1
      · rcases hcd : collectDecisions dec reqs with _ | ds
        · rw [runLoop_cons_promptCtrlC dec ie s evs rest reqs hexit hcd] at hd ⊢
          simp only [List.any_append, Bool.or_eq_false_iff] at hd
          rw [stopSpinnerD_hr]
          exact runPass_hr s evs hs hd.1.1
        · by_cases hrj : ds.any isReject = true
          · rw [runLoop_cons_reject dec ie s evs rest reqs ds hexit hcd hrj] at hd ⊢
            simp only [List.any_append, Bool.or_eq_false_iff] at hd
            rw [stopSpinnerD_hr]
            show ((runPass s evs).1).has_responded = false
            exact runPass_hr s evs hs hd.1.1
          · have hrj2 : ds.any isReject = false := by simpa using hrj
            rw [runLoop_cons_approve dec ie s evs rest reqs ds hexit hcd hrj2] at hd ⊢
            simp only [List.any_append, Bool.or_eq_false_iff] at hd
            refine ih _ ?_ hd.2
            show ((runPass s evs).1).has_responded = false
            exact runPass_hr s evs hs hd.1.1

/-- If some recorded batch carries a rejection, the loop ended on the
reject path: outcome rejected, exactly one rejecting resumption call,
no text rendered after it, and the invoke failure (if any) reported. -/
theorem runLoop_rejected (dec : ActionRequest → Option Decision) (ie : Option String)
    (streams : List (List StreamEvent)) (s : BState)
    (hb : noRejectBatches s.batches = true)
    (h : (runLoop dec ie s streams).1.batches.any (fun b => b.any isReject) = true) :
    (runLoop dec ie s streams).2.2 = Outcome.rejected ∧
    (runLoop dec ie s streams).2.1.countP isRejectResume = 1 ∧
    hasTextAfterReject (runLoop dec ie s streams).2.1 = false ∧
    (∀ e, ie = some e → Out.errorResume e ∈ (runLoop dec ie s streams).2.1) := by
  induction streams generalizing s with
  | nil =>
      exfalso
      simp only [runLoop] at h
      rw [List.any_eq_true] at h
      obtain ⟨b, hbm, hbr⟩ := h
      have hall := (List.all_eq_true.mp hb) b hbm
      simp [hbr] at hall
  | cons evs rest ih =>
      have hpb := runPass_batches s evs
      rcases hexit : (runPass s evs).2.2 with _ | _ | reqs
      · exfalso
        rw [runLoop_cons_exhausted dec ie s evs rest hexit] at h
        rw [hpb, List.any_eq_true] at h
        obtain ⟨b, hbm, hbr⟩ := h
        have hall := (List.all_eq_true.mp hb) b hbm
        simp [hbr] at hall
      · exfalso
        rw [runLoop_cons_ctrlC dec ie s evs rest hexit] at h
        rw [stopSpinnerD_batches, hpb, List.any_eq_true] at h
        obtain ⟨b, hbm, hbr⟩ := h
        have hall := (List.all_eq_true.mp hb) b hbm
        simp [hbr] at hall
      · rcases hcd : collectDecisions dec reqs with _ | ds
        · exfalso
          rw [runLoop_cons_promptCtrlC dec ie s evs rest reqs hexit hcd] at h
          rw [stopSpinnerD_batches, hpb, List.any_eq_true] at h
          obtain ⟨b, hbm, hbr⟩ := h
          have hall := (List.all_eq_true.mp hb) b hbm
          simp [hbr] at hall
        · by_cases hrj : ds.any isReject = true
          · rw [runLoop_cons_reject dec ie s evs rest reqs ds hexit hcd hrj]
            have hqmem : ∀ o ∈ (stopSpinnerD (pushBatch (runPass s evs).1 ds)).2,
                isRejectResume o = false := by
              intro o ho
              rw [stopSpinnerD_mem_eq _ o ho]
              rfl
            have hAmem : ∀ o ∈ (runPass s evs).2.1 ++
                (stopSpinnerD (pushBatch (runPass s evs).1 ds)).2,
                isRejectResume o = false := by
              intro o ho
              rcases List.mem_append.mp ho with ho | ho
              · exact runPass_no_reject s evs o ho
              · exact hqmem o ho
            refine ⟨rfl, ?_, ?_, ?_⟩
            · rw [List.append_assoc, List.countP_append, List.countP_append,
                countP_zero_of_no_reject _ (runPass_no_reject s evs),
                countP_zero_of_no_reject _ hqmem, rejectTail_countP ds ie hrj]
            · rw [List.append_assoc]
              exact hasTextAfterReject_append_false _ _ (runPass_no_reject s evs)
                (hasTextAfterReject_append_false _ _ hqmem (rejectTail_no_text ds ie))
            · intro e hie
              subst hie
              simp [List.mem_append, rejectTail_mem_err ds e]
          · have hrj2 : ds.any isReject = false := by simpa using hrj
            rw [runLoop_cons_approve dec ie s evs rest reqs ds hexit hcd hrj2] at h ⊢
            have hb2 : noRejectBatches ((pushBatch (runPass s evs).1 ds).batches) = true := by
              simp only [pushBatch, hpb, noRejectBatches, List.all_append]
              have h1 : s.batches.all (fun b => !b.any isReject) = true := hb
              simp [h1, hrj2]
            obtain ⟨ih1, ih2, ih3, ih4⟩ := ih _ hb2 h
            have hrs : isRejectResume (Out.resumeStream ds) = false := by
              simp [isRejectResume, hrj2]
            refine ⟨ih1, ?_, ?_, ?_⟩
            · rw [List.append_assoc, List.countP_append, List.countP_append,
                countP_zero_of_no_reject _ (runPass_no_reject s evs)]
              simp [List.countP_cons, hrs, ih2]
            · rw [List.append_assoc]
              refine hasTextAfterReject_append_false _ _ (runPass_no_reject s evs) ?_
              exact hasTextAfterReject_append_false _ _
                (by intro o ho; simp only [List.mem_singleton] at ho; subst ho; exact hrs)
                ih3
            · intro e hie
              have := ih4 e hie
              simp [List.mem_append, this]

/-- The epilogue changes no batches. -/
theorem finishTurn_batches (s1 : BState) (o1 : List Out) (oc : Outcome)
    (t0 : TokenTracker) :
    (finishTurn s1 o1 oc t0).batches = s1.batches := by
  cases oc with
  | completed =>
      by_cases h1 : s1.has_responded
      · by_cases h2 : s1.captured_in ≠ 0 ∨ s1.captured_out ≠ 0 <;>
          simp [finishTurn, h1, h2, stopSpinnerD_batches]
      · simp [finishTurn, h1, stopSpinnerD_batches]
  | rejected => rfl
  | interruptedByUser => rfl

/-- The epilogue appends no text: the trace has text exactly when the
loop trace does. -/
theorem finishTurn_text (s1 : BState) (o1 : List Out) (oc : Outcome)
    (t0 : TokenTracker) :
    (finishTurn s1 o1 oc t0).out.any isText = o1.any isText := by
  cases oc with
  | completed =>
      by_cases h1 : s1.has_responded
      · by_cases h2 : s1.captured_in ≠ 0 ∨ s1.captured_out ≠ 0
        · by_cases h3 : (t0.add s1.captured_in s1.captured_out).last_output ≠ 0 ∧
              (t0.add s1.captured_in s1.captured_out).last_output ≥ 1000 <;>
            simp [finishTurn, h1, h2, h3, List.any_append, stopSpinnerD_any_text, isText]
        · simp [finishTurn, h1, h2, List.any_append, stopSpinnerD_any_text]
      · simp [finishTurn, h1, List.any_append, stopSpinnerD_any_text]
  | rejected => rfl
  | interruptedByUser => rfl

/-- The epilogue leaves the tracker untouched when the turn rendered
no text. -/
theorem finishTurn_tracker_hr_false (s1 : BState) (o1 : List Out) (oc : Outcome)
    (t0 : TokenTracker) (h : s1.has_responded = false) :
    (finishTurn s1 o1 oc t0).tracker = t0 := by
  cases oc with
  | completed => simp [finishTurn, h]
  | rejected => rfl
  | interruptedByUser => rfl

/-- The epilogue on a rejected outcome returns the loop trace as is. -/
theorem finishTurn_rejected_eq (s1 : BState) (o1 : List Out) (t0 : TokenTracker) :
    finishTurn s1 o1 Outcome.rejected t0 =
      { out := o1, outcome := Outcome.rejected, tracker := t0,
        has_responded := s1.has_responded, captured_in := s1.captured_in,
        captured_out := s1.captured_out, batches := s1.batches } := rfl

/-- C1: when some collected decision batch contains a rejection, the
turn ends with outcome rejected, the engine issues exactly one
resumption call carrying the rejection payload, no text fragment is
rendered after that call, and a failure of the call itself is reported
as text while the outcome stays rejected. -/
theorem c1_reject_terminal (streams : List (List StreamEvent))
    (dec : ActionRequest → Option Decision) (ie : Option String) (t0 : TokenTracker)
    (h : (execute_task streams dec ie t0).batches.any (fun b => b.any isReject) = true) :
    (execute_task streams dec ie t0).outcome = Outcome.rejected ∧
    (execute_task streams dec ie t0).out.countP isRejectResume = 1 ∧
    hasTextAfterReject (execute_task streams dec ie t0).out = false ∧
    (∀ e, ie = some e → Out.errorResume e ∈ (execute_task streams dec ie t0).out) := by
  simp only [execute_task] at h ⊢
  rw [finishTurn_batches] at h
  obtain ⟨hoc, hcount, htext, herr⟩ := runLoop_rejected dec ie streams initState rfl h
  rw [hoc, finishTurn_rejected_eq]
  exact ⟨rfl, hcount, htext, herr⟩

/-- Witness for C1: a one-request interrupt rejected by the user while
the reject-path invoke raises. -/
theorem c1_reject_terminal_witness :
    (execute_task c1streams decRejectAll (some "boom") trackerW).outcome
        = Outcome.rejected ∧
    (execute_task c1streams decRejectAll (some "boom") trackerW).out.countP
        isRejectResume = 1 ∧
    hasTextAfterReject (execute_task c1streams decRejectAll (some "boom") trackerW).out
        = false ∧
    Out.errorResume "boom" ∈
      (execute_task c1streams decRejectAll (some "boom") trackerW).out := by
  have h := c1_reject_terminal c1streams decRejectAll (some "boom") trackerW (by decide)
  exact ⟨h.1, h.2.1, h.2.2.1, h.2.2.2 "boom" rfl⟩

/-- C10: a turn that renders no visible text fragment, whatever else
it streamed, captured or did (including rejected and user-interrupted
turns), leaves the token tracker exactly as it was: the tracker is
mutated only after a turn that produced visible text. -/
theorem c10_tracker_frame (streams : List (List StreamEvent))
    (dec : ActionRequest → Option Decision) (ie : Option String) (t0 : TokenTracker)
    (h : (execute_task streams dec ie t0).out.any isText = false) :
    (execute_task streams dec ie t0).tracker = t0 := by
  simp only [execute_task] at h ⊢
  rw [finishTurn_text] at h
  exact finishTurn_tracker_hr_false _ _ _ _
    (runLoop_hr dec ie streams initState rfl h)

/-- Witness for C10: a turn with an empty stream (nothing rendered)
leaves a concrete tracker unchanged. -/
theorem c10_tracker_frame_witness :
    (execute_task [] decNone none trackerW).tracker = trackerW :=
  c10_tracker_frame [] decNone none trackerW (by decide)

end DeepAgentsCli
